import Mathlib

set_option maxRecDepth 1000000

/-!
Verification development for the axial-map cleaning pipeline
(`src/image_cleaning.py`: `standardize_image`, `clean_axial_map`).

The two Python functions are shallowly embedded below.  Images are dense
2-D arrays of 3-channel (B,G,R) byte samples, modelled as a structure
carrying a width, a height and a total pixel function.  Fallible library
calls are modelled in `Except`.

External OpenCV/NumPy primitives are modelled as follows; everything that
belongs to the repository itself (thresholds, masks, the component loop,
the slicing arithmetic, the clipping) is translated verbatim from the
source.

* `cv.inpaint` — only the pixels selected by the mask are recomputed; the
  recomputed values come from an abstract `CvOps.inpaintPx` parameter, so
  theorems quantify over every possible inpainting behaviour.  Pixels off
  the mask are returned unchanged (the documented contract of
  `cv.inpaint`).
* `cv.medianBlur (ksize 23)` — an abstract per-pixel reference
  `CvOps.medianPx`, reduced to the byte range.
* `cv.resize` — raises on an empty source image, and otherwise returns an
  image of exactly the requested size whose contents come from an abstract
  sampling parameter `CvOps.samplePx` (the interpolation mode only affects
  contents, never the shape or the emptiness check).
* `cv.circle (thickness -1)` — the ideal filled disc
  `(x-cx)^2 + (y-cy)^2 <= r^2`, and an error for a negative radius
  (OpenCV asserts `radius >= 0`).
* `cv.cvtColor BGR2GRAY` — OpenCV's exact fixed-point formula
  `(4899*R + 9617*G + 1868*B + 8192) >>> 14`.
* `cv.inRange` over HSV with bounds `(0,0,0)..(179|180,255,200|160)` —
  for 8-bit images OpenCV's hue always lies in `[0,179]` and saturation in
  `[0,255]`, so the hue/saturation bounds never exclude a pixel and the
  mask is exactly `V <= bound` with `V = max(B,G,R)`; the embedding uses
  that form directly.
* `cv.connectedComponentsWithStats` / `cv.findContours` — connected
  components computed by a fuelled breadth-first search; a contour is
  represented by its component's pixel set.  `cv.contourArea` (used only
  to order contours) is modelled as `(bboxW-1)*(bboxH-1)`, which agrees
  with OpenCV's polygon area on filled axis-aligned rectangles, single
  points and straight lines — the only shapes this development evaluates
  it on.  `cv.minEnclosingCircle` is modelled as the bounding-box-centre
  circle, which coincides with the true minimum enclosing circle on the
  point sets (at most two points, rectangles) evaluated here.
* NumPy boolean-mask assignment
  (`temp_mask[y:y+h+2, x:x+w+2][mask_circle] = 255`) — faithful to NumPy:
  basic slicing clamps to the array bounds, and indexing the clamped view
  with a boolean mask of a different shape raises `IndexError`; the
  embedding returns an error in exactly that case.
* `round` (Python, applied to `np.mean(...)*100`) — round-half-to-even on
  the exact rational value (the Python float computes the same integer at
  every input evaluated in this development).
-/

namespace AxialMap

/-- One 3-channel (B,G,R) pixel sample. -/
structure Pix where
  b : Nat
  g : Nat
  r : Nat
deriving DecidableEq, Repr

/-- Storage into an 8-bit channel: values are reduced mod 256. -/
def pixMod (p : Pix) : Pix :=
  ⟨p.b % 256, p.g % 256, p.r % 256⟩

/-- A dense image: width, height, and a total pixel function (row `y`,
column `x`). -/
structure Img where
  w : Nat
  h : Nat
  pix : Nat → Nat → Pix

instance : Inhabited Img := ⟨⟨0, 0, fun _ _ => ⟨0, 0, 0⟩⟩⟩

/-- Errors the pipeline can raise (modelling OpenCV/NumPy exceptions). -/
inductive Err where
  /-- NumPy `IndexError`: boolean index did not match the indexed view. -/
  | boolIndexMismatch : Err
  /-- OpenCV error: `cv.resize` on an empty source image. -/
  | emptyResize : Err
  /-- OpenCV assertion: `cv.circle` requires a non-negative radius. -/
  | negativeRadius : Err
deriving DecidableEq, Repr

/-- Abstract content parameters for the OpenCV primitives whose numeric
output the repository treats as a black box. -/
structure CvOps where
  /-- Value `cv.inpaint` writes at a masked pixel. -/
  inpaintPx : Img → (Nat → Nat → Bool) → Nat → Nat → Pix
  /-- Value of `cv.medianBlur(img, 23)` at a pixel. -/
  medianPx : Img → Nat → Nat → Pix
  /-- Value sampled by `cv.resize` for target size `w × h` at a pixel. -/
  samplePx : Img → Nat → Nat → Nat → Nat → Pix

/-- `cv.inpaint(img, mask, 3, INPAINT_NS)`: masked pixels are recomputed
(and stored as bytes), unmasked pixels are returned unchanged. -/
def inpaintImg (ops : CvOps) (img : Img) (mask : Nat → Nat → Bool) : Img :=
  ⟨img.w, img.h, fun y x =>
    if mask y x then pixMod (ops.inpaintPx img mask y x) else img.pix y x⟩

/-- `cv.medianBlur(img, 23)`: the smoothed reference copy. -/
def medianFiltered (ops : CvOps) (img : Img) : Img :=
  ⟨img.w, img.h, fun y x => pixMod (ops.medianPx img y x)⟩

/-- `cv.resize(img, (w, h), INTER_AREA)`: errors on an empty source,
otherwise returns exactly the requested shape. -/
def resizeImg (ops : CvOps) (img : Img) (w h : Nat) : Except Err Img :=
  if img.w = 0 || img.h = 0 then .error .emptyResize
  else .ok ⟨w, h, fun y x => pixMod (ops.samplePx img w h y x)⟩

/-- The filled-disc membership test of `cv.circle(..., thickness=-1)`:
pixel `(x, y)` is on the disc of centre `(cx, cy)` and radius `r`. -/
def inDisc (cx cy r : Int) (y x : Nat) : Bool :=
  ((x : Int) - cx) * ((x : Int) - cx) + ((y : Int) - cy) * ((y : Int) - cy) ≤ r * r

/-- `cv.circle(mask, (cx,cy), r, 255, -1)` on a zeroed 1-channel mask:
OpenCV asserts `r >= 0`, then fills the disc. -/
def circleMask1 (cx cy r : Int) : Except Err (Nat → Nat → Bool) :=
  if r < 0 then .error .negativeRadius
  else .ok (fun y x => inDisc cx cy r y x)

/-- `cv.circle(mask3, (cx,cy), r, (255,255,255), -1)` on a zeroed
3-channel image of the given shape. -/
def circleMask3 (w h : Nat) (cx cy r : Int) : Except Err Img :=
  if r < 0 then .error .negativeRadius
  else .ok ⟨w, h, fun y x =>
    if inDisc cx cy r y x then ⟨255, 255, 255⟩ else ⟨0, 0, 0⟩⟩

/-- Per-channel `cv.bitwise_and` of two images (used with the drawn
3-channel circle mask for the final clip). -/
def andImg (a bimg : Img) : Img :=
  ⟨a.w, a.h, fun y x =>
    ⟨(a.pix y x).b &&& (bimg.pix y x).b,
     (a.pix y x).g &&& (bimg.pix y x).g,
     (a.pix y x).r &&& (bimg.pix y x).r⟩⟩

/-- `cv.bitwise_and(src, src, mask=m)`: copy where the mask is set, zero
elsewhere. -/
def maskedCopy (a : Img) (m : Nat → Nat → Bool) : Img :=
  ⟨a.w, a.h, fun y x => if m y x then a.pix y x else ⟨0, 0, 0⟩⟩

/-- Whether an `Except` value is a normal return. -/
def exceptIsOk : Except Err (Img × Img) → Bool
  | .ok _ => true
  | .error _ => false

/-! ### Dark-artifact mask and threshold adaptation (lines 64-72) -/

/-- Python's `round` on the exact rational `a / b` (round half to even),
as an integer function of numerator and denominator. -/
def pythonRoundNat (a b : Nat) : Nat :=
  let q := a / b
  let r := a % b
  if 2 * r < b then q
  else if b < 2 * r then q + 1
  else if q % 2 = 0 then q else q + 1

/-- The HSV value channel of a BGR pixel: `V = max(B, G, R)`. -/
def maxCh (p : Pix) : Nat := max p.b (max p.g p.r)

/-- `cv.inRange(hsv, (0,0,0), (179,255,200))`: for 8-bit input the hue and
saturation bounds are vacuous, so the looser dark mask is `V <= 200`. -/
def looseMask (img : Img) (y x : Nat) : Bool := maxCh (img.pix y x) ≤ 200

/-- `cv.inRange(hsv, (0,0,0), (180,255,160))`: the stricter dark mask,
`V <= 160`. -/
def strictMask (img : Img) (y x : Nat) : Bool := maxCh (img.pix y x) ≤ 160

/-- Number of pixels a mask flags on a `w × h` frame. -/
def maskCount (m : Nat → Nat → Bool) (w h : Nat) : Nat :=
  ((List.range h).map (fun y => ((List.range w).filter (fun x => m y x)).length)).sum

/-- Pixels the looser dark mask flags (`np.mean(mask == 255)`'s
numerator). -/
def looseCount (img : Img) : Nat := maskCount (looseMask img) img.w img.h

/-- Line 69-71: `perc_mask = round(np.mean(mask == 255) * 100)`, then the
stricter cutoff is selected iff `perc_mask > 20`. -/
def selectsStrict (img : Img) : Bool :=
  20 < pythonRoundNat (100 * looseCount img) (img.w * img.h)

/-- Lines 64-75: build the dark mask (with threshold adaptation) and
repair it by inpainting. -/
def darkRepair (ops : CvOps) (img : Img) : Img :=
  let mask := if selectsStrict img then strictMask img else looseMask img
  inpaintImg ops img mask

/-! ### The extreme-value mask (lines 77-87) -/

/-- Lines 80-87: near-black, near-black-warm, or near-saturated pixels of
the repaired image. -/
def extremeMask (img : Img) (y x : Nat) : Bool :=
  let p := img.pix y x
  (p.b ≤ 75 && p.g ≤ 75 && p.r ≤ 75) ||
  (p.b ≤ 100 && p.g ≤ 100 && p.r ≤ 10) ||
  (180 ≤ p.b && 180 ≤ p.g && 180 ≤ p.r)

/-! ### Connected components with statistics (lines 90-92)

`cv.connectedComponentsWithStats(mask1, connectivity=4)` is modelled by a
fuelled breadth-first search over the mask; components are produced in
raster order of their first pixel, labels `1, 2, ...` (label 0 is the
background, exactly as in OpenCV). -/

/-- 4-neighbours of a grid point `(y, x)`. -/
def nbrs4 (p : Nat × Nat) : List (Nat × Nat) :=
  [(p.1 + 1, p.2), (p.1, p.2 + 1)] ++
  (if p.1 = 0 then [] else [(p.1 - 1, p.2)]) ++
  (if p.2 = 0 then [] else [(p.1, p.2 - 1)])

/-- 8-neighbours of a grid point `(y, x)` (used by `cv.findContours`). -/
def nbrs8 (p : Nat × Nat) : List (Nat × Nat) :=
  nbrs4 p ++
  (if p.1 = 0 then [] else
    [(p.1 - 1, p.2 + 1)] ++ (if p.2 = 0 then [] else [(p.1 - 1, p.2 - 1)])) ++
  (if p.2 = 0 then [] else [(p.1 + 1, p.2 - 1)]) ++
  [(p.1 + 1, p.2 + 1)]

/-- Breadth-first growth of a component: `vis` are the pixels found so
far, `front` the last layer; the fuel bounds the number of layers. -/
def growBFS (m : Nat → Nat → Bool) (w h : Nat)
    (nbrs : Nat × Nat → List (Nat × Nat)) :
    Nat → List (Nat × Nat) → List (Nat × Nat) → List (Nat × Nat)
  | 0, vis, _ => vis
  | fuel + 1, vis, front =>
    let ns := ((front.flatMap nbrs).filter
      (fun q => q.1 < h && q.2 < w && m q.1 q.2 && !(vis.contains q))).dedup
    if ns.isEmpty then vis else growBFS m w h nbrs fuel (vis ++ ns) ns

/-- The connected component of a masked pixel. -/
def compOf (m : Nat → Nat → Bool) (w h : Nat)
    (nbrs : Nat × Nat → List (Nat × Nat)) (p : Nat × Nat) : List (Nat × Nat) :=
  growBFS m w h nbrs (w * h) [p] [p]

/-- All grid points of a `w × h` frame in raster order. -/
def rasterPts (w h : Nat) : List (Nat × Nat) :=
  (List.range h).flatMap (fun y => (List.range w).map (fun x => (y, x)))

/-- The connected components of a mask, in raster order of their first
pixel. -/
def componentsOf (m : Nat → Nat → Bool) (w h : Nat)
    (nbrs : Nat × Nat → List (Nat × Nat)) : List (List (Nat × Nat)) :=
  (rasterPts w h).foldl
    (fun acc p =>
      if m p.1 p.2 && acc.all (fun c => !(c.contains p)) then
        acc ++ [compOf m w h nbrs p]
      else acc)
    []

/-- One row of the `cv.connectedComponentsWithStats` statistics table:
bounding box (`CC_STAT_LEFT/TOP/WIDTH/HEIGHT`) and pixel area
(`CC_STAT_AREA`). -/
structure Stat where
  left : Nat
  top : Nat
  width : Nat
  height : Nat
  area : Nat
deriving DecidableEq, Repr

instance : Inhabited Stat := ⟨⟨0, 0, 0, 0, 0⟩⟩

/-- Statistics of one component (a nonempty pixel list). -/
def statOf (c : List (Nat × Nat)) : Stat :=
  let xs := c.map (·.2)
  let ys := c.map (·.1)
  let xmin := xs.foldr min (xs.headD 0)
  let xmax := xs.foldr max 0
  let ymin := ys.foldr min (ys.headD 0)
  let ymax := ys.foldr max 0
  ⟨xmin, ymin, xmax + 1 - xmin, ymax + 1 - ymin, c.length⟩

/-- `cv.connectedComponentsWithStats(mask, connectivity=4)`: the number of
labels (background included) and the statistics table, indexed by
label. -/
def connectedComponentsWithStats (m : Nat → Nat → Bool) (w h : Nat) :
    Nat × (Nat → Stat) :=
  let comps := componentsOf m w h nbrs4
  (comps.length + 1, fun i => statOf (comps.getD (i - 1) []))

/-! ### `standardize_image` (lines 11-51) -/

/-- `cv.cvtColor(img, COLOR_BGR2GRAY)` at one pixel: OpenCV's fixed-point
formula `(R*4899 + G*9617 + B*1868 + 8192) >> 14`. -/
def grayOf (p : Pix) : Nat :=
  (p.r * 4899 + p.g * 9617 + p.b * 1868 + 8192) >>> 14

/-- Line 17: `cv.threshold(gray, 10, 255, THRESH_BINARY)` — foreground is
strictly brighter than 10. -/
def threshMask (img : Img) (y x : Nat) : Bool := 10 < grayOf (img.pix y x)

/-- Line 20: `cv.findContours(thresh, RETR_EXTERNAL, CHAIN_APPROX_SIMPLE)`,
modelled as the 8-connected components of the thresholded mask (each
contour represented by its component's pixel set). -/
def findContours (img : Img) : List (List (Nat × Nat)) :=
  componentsOf (threshMask img) img.w img.h nbrs8

/-- `cv.contourArea`, modelled as `(bboxW-1)*(bboxH-1)` of the contour's
bounding box — the exact polygon area for filled axis-aligned rectangles,
single points and straight lines (the shapes evaluated here); it is used
only to order contours. -/
def contourArea (c : List (Nat × Nat)) : Nat :=
  let st := statOf c
  (st.width - 1) * (st.height - 1)

/-- Line 26: `max(contours, key=cv.contourArea)` — the first contour of
maximal area (Python's `max` keeps the first of equal keys). -/
def largestContour (cs : List (List (Nat × Nat))) : List (Nat × Nat) :=
  cs.foldl (fun best c => if contourArea best < contourArea c then c else best)
    (cs.headD [])

/-- Line 29: `cv.minEnclosingCircle`, modelled as the bounding-box-centre
circle.  To stay in integer arithmetic the result is returned as twice the
centre coordinates together with four times the squared radius; this
coincides with the true minimum enclosing circle on the point sets (at
most two points, rectangles) evaluated in this development. -/
def minEnclosing2 (c : List (Nat × Nat)) : Nat × Nat × Nat :=
  let st := statOf c
  let cx2 := st.left + (st.left + st.width - 1)
  let cy2 := st.top + (st.top + st.height - 1)
  let d4 := (c.foldr (fun p acc =>
    max acc (((2 * p.2 : Int) - cx2) * ((2 * p.2 : Int) - cx2) +
      ((2 * p.1 : Int) - cy2) * ((2 * p.1 : Int) - cy2))) 0).toNat
  (cx2, cy2, d4)

/-- `⌊√n⌋`, by a bounded search (Python's `int(radius)` truncates the
non-negative float radius, and `⌊√(a/4)⌋ = ⌊√⌊a/4⌋⌋`). -/
def intSqrt (n : Nat) : Nat :=
  (List.range (n + 1)).foldl (fun acc k => if k * k ≤ n then k else acc) 0

/-- Lines 34-39: the square crop `img[y1:y2, x1:x2]` (NumPy basic slicing;
an inverted range yields an empty axis). -/
def cropImg (img : Img) (x1 y1 x2 y2 : Nat) : Img :=
  ⟨x2 - x1, y2 - y1, fun y x => img.pix (y1 + y) (x1 + x)⟩

/-- `standardize_image(img, output_size)` (lines 11-51): threshold, find
contours, fit the enclosing circle of the largest one, crop, resize, and
mask to the inscribed circle; with no contours, fall back to a plain
resize.  `int(x)` on the non-negative floats involved is floor, and
`int(radius)` is `Nat.sqrt` of the floored squared radius. -/
def standardize_image (ops : CvOps) (img : Img) (output_size : Nat := 224) :
    Except Err Img :=
  let contours := findContours img
  if contours.isEmpty then
    resizeImg ops img output_size output_size
  else
    let lc := largestContour contours
    let m := minEnclosing2 lc
    let cx := m.1 / 2
    let cy := m.2.1 / 2
    let radius := intSqrt (m.2.2 / 4)
    let x1 := cx - radius
    let y1 := cy - radius
    let x2 := min (cx + radius) img.w
    let y2 := min (cy + radius) img.h
    let cropped := cropImg img x1 y1 x2 y2
    match resizeImg ops cropped output_size output_size with
    | .error e => .error e
    | .ok resized =>
      let c : Int := (output_size / 2 : Nat)
      let mask := fun y x => inDisc c c c y x
      .ok (maskedCopy resized mask)

/-! ### The component-level repair pass of `clean_axial_map`
(lines 95-114) -/

/-- The geometry handed to `clean_axial_map` via `circle_params`. -/
structure CircleParams where
  cirX : Int
  cirY : Int
  cirRadius : Int
deriving DecidableEq, Repr

/-- Lines 98-114, the body of one loop iteration: expand the component's
bounding box by 5 (clamped to the image), build the `ogrid` circle test
over rows `[y, y+h+2)` × columns `[x, x+w+2)`, and inpaint.  When the
grid is not entirely inside the circle, NumPy's boolean-mask assignment
requires the clamped view `temp_mask[y:y+h+2, x:x+w+2]` to have the same
shape as the grid, and raises `IndexError` otherwise — the embedding
returns an error in exactly that case. -/
def repairRegion (ops : CvOps) (cp : CircleParams) (st : Stat) (img : Img) :
    Except Err Img :=
  let x := st.left - 5
  let y := st.top - 5
  let w := min (img.w - x) (st.width + 5)
  let h := min (img.h - y) (st.height + 5)
  let allIn := (List.range' y (h + 2)).all fun i =>
    (List.range' x (w + 2)).all fun j => inDisc cp.cirX cp.cirY cp.cirRadius i j
  if allIn then
    let tempMask := fun i j =>
      y ≤ i && i < min (y + h + 2) img.h && x ≤ j && j < min (x + w + 2) img.w
    .ok (inpaintImg ops img tempMask)
  else if y + h + 2 ≤ img.h && x + w + 2 ≤ img.w then
    let tempMask := fun i j =>
      y ≤ i && i < y + h + 2 && x ≤ j && j < x + w + 2 &&
        inDisc cp.cirX cp.cirY cp.cirRadius i j
    .ok (inpaintImg ops img tempMask)
  else
    .error .boolIndexMismatch

/-- Lines 95-114: the sequential loop over labels.  Alongside the evolving
image it records, as ghost instrumentation, the labels whose region was
re-inpainted. -/
def passAux (ops : CvOps) (cp : CircleParams) (stat : Nat → Stat) :
    List Nat → Img → List Nat → Except Err (Img × List Nat)
  | [], img, acc => .ok (img, acc)
  | i :: rest, img, acc =>
    if 1 < (stat i).area ∧ (stat i).area < 600 then
      match repairRegion ops cp (stat i) img with
      | .error e => .error e
      | .ok img' => passAux ops cp stat rest img' (i :: acc)
    else
      passAux ops cp stat rest img acc

/-- The whole component-level repair pass: `for i in range(1, num_labels)`
with the area filter `1 < area < 600`. -/
def componentPass (ops : CvOps) (cp : CircleParams) (stat : Nat → Stat)
    (numLabels : Nat) (img : Img) : Except Err (Img × List Nat) :=
  passAux ops cp stat (List.range' 1 (numLabels - 1)) img []

/-! ### `clean_axial_map` (lines 54-134) -/

/-- Lines 54-114: everything up to and including the component-level
repair pass — the smoothed reference is kept separately, the adaptive dark
mask is repaired, the extreme-value mask is labelled, and each mid-size
component is re-inpainted in sequence. -/
def cleanPass (ops : CvOps) (img : Img) (cp : CircleParams) :
    Except Err (Img × List Nat) :=
  let result := darkRepair ops img
  let cc := connectedComponentsWithStats (extremeMask result) result.w result.h
  componentPass ops cp cc.2 cc.1 result

/-- `clean_axial_map(img, circle_params)` (lines 54-134): dark-mask repair,
component-level repair, highlight correction from the median reference,
final circular clip, and standardization of the clipped image. -/
def clean_axial_map (ops : CvOps) (img : Img) (cp : CircleParams) :
    Except Err (Img × Img) :=
  match cleanPass ops img cp with
  | .error e => .error e
  | .ok (result, _) =>
    match circleMask1 cp.cirX cp.cirY cp.cirRadius with
    | .error e => .error e
    | .ok circleMask =>
      let median := medianFiltered ops img
      let mask2 := fun y x =>
        (150 ≤ (result.pix y x).b && 150 ≤ (result.pix y x).g &&
          150 ≤ (result.pix y x).r) && circleMask y x
      let result2 : Img := ⟨result.w, result.h, fun y x =>
        if mask2 y x then median.pix y x else result.pix y x⟩
      match circleMask3 img.w img.h cp.cirX cp.cirY cp.cirRadius with
      | .error e => .error e
      | .ok c3 =>
        let result_full := andImg result2 c3
        match standardize_image ops result_full 224 with
        | .error e => .error e
        | .ok result_standardized => .ok (result_full, result_standardized)

/-! ### A concrete instantiation of the abstract primitives

Used to evaluate the pipeline at the witnesses and counterexamples: the
inpainting model writes a mid-gray value into the masked region (any
behaviour is admissible for `cv.inpaint`'s recomputed values), the median
model reads the source pixel (the exact reference values never matter to
the statements evaluated below), and the resize model samples the nearest
source coordinate (it agrees with `INTER_AREA` on constant images, which
is all the evaluations rely on). -/

/-- Concrete model primitives for evaluation. -/
def modelOps : CvOps where
  inpaintPx := fun _ _ _ _ => ⟨100, 100, 100⟩
  medianPx := fun img y x => img.pix y x
  samplePx := fun img w h y x => img.pix (y * img.h / h) (x * img.w / w)

/-- A uniform image of one pixel value. -/
def uniformImg (w h : Nat) (p : Pix) : Img := ⟨w, h, fun _ _ => p⟩

/-! ### Helper lemmas -/

/-- A byte value is fixed by masking with `0xFF`. -/
theorem mod256_and_255 (n : Nat) : n % 256 &&& 255 = n % 256 := by
  apply Nat.eq_of_testBit_eq
  intro i
  rw [Nat.testBit_and]
  by_cases hi : i < 8
  · have h255 : Nat.testBit 255 i = true := by
      interval_cases i <;> decide
    simp [h255]
  · have hmod : n % 256 < 2 ^ i := by
      have : (256 : Nat) ≤ 2 ^ i := by
        calc (256 : Nat) = 2 ^ 8 := by norm_num
          _ ≤ 2 ^ i := Nat.pow_le_pow_right (by norm_num) (by omega)
      omega
    have hbit := Nat.testBit_lt_two_pow hmod
    simp [hbit]

/-- The labels the repair loop records are exactly the accumulator plus
the labels of the remaining list whose area passes the `1 < area < 600`
filter. -/
theorem passAux_mem_iff (ops : CvOps) (cp : CircleParams) (stat : Nat → Stat) :
    ∀ (l : List Nat) (img : Img) (acc : List Nat) (res : Img) (ids : List Nat),
    passAux ops cp stat l img acc = .ok (res, ids) →
    ∀ j, j ∈ ids ↔ j ∈ acc ∨ (j ∈ l ∧ 1 < (stat j).area ∧ (stat j).area < 600) := by
  intro l
  induction l with
  | nil =>
    intro img acc res ids h j
    unfold passAux at h
    injection h with h'
    injection h' with h1 h2
    subst h2
    simp
  | cons i rest ih =>
    intro img acc res ids h j
    unfold passAux at h
    by_cases hc : 1 < (stat i).area ∧ (stat i).area < 600
    · rw [if_pos hc] at h
      cases hrep : repairRegion ops cp (stat i) img with
      | error e => rw [hrep] at h; cases h
      | ok img' =>
        rw [hrep] at h
        have := ih img' (i :: acc) res ids h j
        rw [this]
        by_cases hj : j = i
        · subst hj
          simp only [List.mem_cons]
          tauto
        · simp only [List.mem_cons]
          tauto
    · rw [if_neg hc] at h
      have := ih img acc res ids h j
      rw [this]
      by_cases hj : j = i
      · subst hj
        simp only [List.mem_cons]
        tauto
      · simp only [List.mem_cons]
        tauto

/-- Python's banker's rounding of `a / b` exceeds 20 exactly when the
exact value exceeds 20.5 (the tie `20.5` rounds down to the even 20). -/
theorem pythonRoundNat_gt_20 (a b : Nat) (hb : 0 < b) :
    20 < pythonRoundNat a b ↔ 41 * b < 2 * a := by
  have hdm : b * (a / b) + a % b = a := Nat.div_add_mod a b
  have hrlt : a % b < b := Nat.mod_lt _ hb
  unfold pythonRoundNat
  by_cases h1 : 2 * (a % b) < b
  · rw [if_pos h1]
    constructor
    · intro h20
      have : b * 21 ≤ b * (a / b) := Nat.mul_le_mul_left b h20
      omega
    · intro h41
      by_contra hle
      push_neg at hle
      have : b * (a / b) ≤ b * 20 := Nat.mul_le_mul_left b (by omega)
      omega
  · rw [if_neg h1]
    by_cases h2 : b < 2 * (a % b)
    · rw [if_pos h2]
      constructor
      · intro h20
        have : b * 20 ≤ b * (a / b) := Nat.mul_le_mul_left b (by omega)
        omega
      · intro h41
        by_contra hle
        push_neg at hle
        have : b * (a / b) ≤ b * 19 := Nat.mul_le_mul_left b (by omega)
        omega
    · rw [if_neg h2]
      have htie : 2 * (a % b) = b := by omega
      by_cases hq : a / b % 2 = 0
      · rw [if_pos hq]
        constructor
        · intro h20
          have : b * 21 ≤ b * (a / b) := Nat.mul_le_mul_left b h20
          omega
        · intro h41
          by_contra hle
          push_neg at hle
          have : b * (a / b) ≤ b * 20 := Nat.mul_le_mul_left b hle
          omega
      · rw [if_neg hq]
        constructor
        · intro h20
          have h21 : 21 ≤ a / b := by omega
          have : b * 21 ≤ b * (a / b) := Nat.mul_le_mul_left b h21
          omega
        · intro h41
          by_contra hle
          push_neg at hle
          have hle19 : a / b ≤ 19 := by omega
          have : b * (a / b) ≤ b * 19 := Nat.mul_le_mul_left b hle19
          omega

/-! ### Claim C1: the component-level area filter -/

/-- C1.  In the component-level repair pass, a connected component of the
extreme-value mask is re-inpainted if and only if its pixel area is
strictly between 1 and 600: whenever the pass completes, the set of
labels whose region was re-inpainted (`ids`, the ghost record of the
loop) is exactly the set of labels `1 <= i < numLabels` with
`1 < area < 600`; every other component is left untouched by the pass. -/
theorem c1_component_filter (ops : CvOps) (cp : CircleParams)
    (stat : Nat → Stat) (numLabels : Nat) (img res : Img) (ids : List Nat)
    (h : componentPass ops cp stat numLabels img = .ok (res, ids)) (i : Nat) :
    i ∈ ids ↔ 1 ≤ i ∧ i < numLabels ∧
      1 < (stat i).area ∧ (stat i).area < 600 := by
  have hmem := passAux_mem_iff ops cp stat (List.range' 1 (numLabels - 1))
    img [] res ids h i
  rw [hmem, List.mem_range'_1]
  constructor
  · rintro (hfalse | ⟨⟨h1, h2⟩, h3, h4⟩)
    · cases hfalse
    · exact ⟨h1, by omega, h3, h4⟩
  · rintro ⟨h1, h2, h3, h4⟩
    exact Or.inr ⟨⟨h1, by omega⟩, h3, h4⟩

/-- The image for C1's witness run: a uniform mid-colour frame. -/
def c1img : Img := uniformImg 6 6 ⟨210, 90, 90⟩

/-- The statistics table for C1's witness run: one label of area 4. -/
def c1stat : Nat → Stat := fun i => if i = 1 then ⟨0, 0, 2, 2, 4⟩ else ⟨0, 0, 0, 0, 0⟩

/-- C1's witness run of the component pass. -/
def c1run : Except Err (Img × List Nat) :=
  componentPass modelOps ⟨3, 3, 100⟩ c1stat 2 c1img

/-- The image C1's witness run produces. -/
def c1res : Img := match c1run with | .ok (r, _) => r | .error _ => default

/-- The repaired labels C1's witness run records. -/
def c1ids : List Nat := match c1run with | .ok (_, ids) => ids | .error _ => []

/-- Witness for C1 at a concrete run: label 1 (area 4) is repaired. -/
theorem c1_component_filter_witness :
    1 ∈ c1ids ↔ 1 ≤ 1 ∧ 1 < 2 ∧ 1 < (c1stat 1).area ∧ (c1stat 1).area < 600 :=
  c1_component_filter modelOps ⟨3, 3, 100⟩ c1stat 2 c1img c1res c1ids rfl 1

/-! ### Claim C2: totality of `clean` -/

/-- C2's failing input: an 8×8 frame whose only extreme-value component
(two saturated pixels, area 2) touches the bottom border, with a small
circle geometry, so the expanded repair box reaches outside the image and
is only partly inside the circle. -/
def img2 : Img := ⟨8, 8, fun y x =>
  if y = 7 && (x = 3 || x = 4) then ⟨255, 255, 255⟩ else ⟨210, 90, 90⟩⟩

/-- C2.  `clean` is claimed to be total, in particular when a repaired
component's expanded bounding box reaches the image border and is only
partly inside the circle — but at exactly such an input the code raises
NumPy's `IndexError` (the boolean circle grid has shape `(h+2, w+2)`
while the clamped mask view is smaller), so `clean` fails. -/
theorem c2_border_component_fails :
    clean_axial_map modelOps img2 ⟨4, 4, 3⟩ = .error .boolIndexMismatch := rfl

/-! ### Claim C3: the 20 % threshold-adaptation policy -/

/-- C3's counterexample input: an 8×8 frame with 13 of 64 pixels dark —
the looser mask flags 20.3125 % of the pixels. -/
def img3 : Img := ⟨8, 8, fun y x =>
  if y * 8 + x < 13 then ⟨100, 100, 100⟩ else ⟨250, 250, 250⟩⟩

/-- Counterexample to C3 as stated: the looser dark mask flags strictly
more than 20 % of the pixels, yet the stricter cutoff is not selected
(`round(20.3125) = 20` is not `> 20`). -/
theorem c3_counterexample :
    100 * looseCount img3 > 20 * (img3.w * img3.h) ∧
      selectsStrict img3 = false := by
  refine ⟨by decide, by decide⟩

/-- C3 (amended).  The stricter brightness cutoff is selected iff the
rounded percentage exceeds 20, i.e. iff the looser mask flags strictly
more than 20.5 % of the pixels (`200·count > 41·total`); in particular
exactly 21 % selects the stricter cutoff and 19 % keeps the default. -/
theorem c3_strict_cutoff_iff (img : Img) (h : 0 < img.w * img.h) :
    selectsStrict img = true ↔
      200 * looseCount img > 41 * (img.w * img.h) := by
  unfold selectsStrict
  rw [decide_eq_true_iff]
  have := pythonRoundNat_gt_20 (100 * looseCount img) (img.w * img.h) h
  rw [this]
  constructor <;> intro h' <;> omega

/-- C3's witness input: a 10×10 frame with 21 of 100 pixels dark — the
looser mask flags exactly 21 % of the pixels. -/
def img3w : Img := ⟨10, 10, fun y x =>
  if y * 10 + x < 21 then ⟨100, 100, 100⟩ else ⟨250, 250, 250⟩⟩

/-- Witness for the amended C3 at a concrete input flagging exactly 21 %:
the stricter cutoff is selected. -/
theorem c3_strict_cutoff_iff_witness :
    0 < img3w.w * img3w.h ∧
      (selectsStrict img3w = true ↔
        200 * looseCount img3w > 41 * (img3w.w * img3w.h)) :=
  ⟨by decide, c3_strict_cutoff_iff img3w (by decide)⟩

/-! ### Claim C4: the full-resolution output is zero outside the circle -/

/-- C4.  Whenever `clean` returns, every pixel of the full-resolution
output lying outside the supplied circle geometry (distance from the
centre strictly greater than the radius, i.e. off the disc) is background:
all three channels are zero. -/
theorem c4_outside_circle_zero (ops : CvOps) (img : Img) (cp : CircleParams)
    (full std : Img) (h : clean_axial_map ops img cp = .ok (full, std))
    (x y : Nat) (hout : inDisc cp.cirX cp.cirY cp.cirRadius y x = false) :
    full.pix y x = ⟨0, 0, 0⟩ := by
  unfold clean_axial_map at h
  cases hp : cleanPass ops img cp with
  | error e => rw [hp] at h; simp at h
  | ok pr =>
    obtain ⟨result, ids⟩ := pr
    rw [hp] at h
    cases hcm : circleMask1 cp.cirX cp.cirY cp.cirRadius with
    | error e => rw [hcm] at h; simp at h
    | ok cm =>
      rw [hcm] at h
      cases hc3 : circleMask3 img.w img.h cp.cirX cp.cirY cp.cirRadius with
      | error e => rw [hc3] at h; simp at h
      | ok c3 =>
        rw [hc3] at h
        dsimp only at h
        split at h
        · simp at h
        · rename_i out hstd
          simp only [Except.ok.injEq, Prod.mk.injEq] at h
          obtain ⟨hf, hs⟩ := h
          unfold circleMask3 at hc3
          split at hc3
          · simp at hc3
          · simp only [Except.ok.injEq] at hc3
            subst hc3
            rw [← hf]
            simp [andImg, hout, Nat.and_zero]

/-- C4's witness input: a uniform artifact-free 4×4 frame. -/
def img4 : Img := uniformImg 4 4 ⟨210, 90, 90⟩

/-- C4's witness run. -/
def c4run : Except Err (Img × Img) := clean_axial_map modelOps img4 ⟨2, 2, 2⟩

/-- Full-resolution output of C4's witness run. -/
def c4full : Img := match c4run with | .ok (f, _) => f | .error _ => default

/-- Standardized output of C4's witness run. -/
def c4std : Img := match c4run with | .ok (_, s) => s | .error _ => default

/-- Witness for C4 at a concrete run: the corner pixel `(0,0)` lies off
the disc of centre `(2,2)` and radius 2, and comes out zero. -/
theorem c4_outside_circle_zero_witness :
    clean_axial_map modelOps img4 ⟨2, 2, 2⟩ = .ok (c4full, c4std) ∧
      inDisc 2 2 2 0 0 = false ∧ c4full.pix 0 0 = ⟨0, 0, 0⟩ :=
  ⟨rfl, by decide,
    c4_outside_circle_zero modelOps img4 ⟨2, 2, 2⟩ c4full c4std rfl 0 0 (by decide)⟩

/-! ### Claim C5: the degenerate-contour guard of `standardize` -/

/-- C5's failing input: a 20×20 black frame with a single bright pixel at
row 7, column 9 — the selected contour is a single point of measured area
zero. -/
def img5 : Img := ⟨20, 20, fun y x =>
  if y = 7 && x = 9 then ⟨255, 255, 255⟩ else ⟨0, 0, 0⟩⟩

/-- C5.  The claim says a selected contour of zero measured area is
skipped in favour of the no-contour fallback and never propagated as a
failure — but the code has no such guard: at `img5` the selected contour
has area 0, the enclosing radius truncates to 0, the crop is empty, and
`cv.resize` raises, so `standardize` fails. -/
theorem c5_degenerate_contour_fails :
    contourArea (largestContour (findContours img5)) = 0 ∧
      standardize_image modelOps img5 224 = .error .emptyResize :=
  ⟨by decide, rfl⟩

/-! ### Claim C6: the standardized output is zero outside the inscribed
circle -/

/-- C6's counterexample input: a uniform near-black 4×4 frame whose gray
level is exactly the binarization threshold 10, so no contour is found. -/
def img6 : Img := uniformImg 4 4 ⟨10, 10, 10⟩

/-- C6's counterexample run. -/
def c6run : Except Err Img := standardize_image modelOps img6 224

/-- Output of C6's counterexample run. -/
def c6out : Img := match c6run with | .ok o => o | .error _ => default

/-- Counterexample to C6 as stated: on the no-contour fallback path the
plain resize is returned without the circular mask, so the corner pixel
`(0,0)` — at distance greater than `224/2` from the output centre — is
`(10,10,10)`, not background. -/
theorem c6_counterexample :
    standardize_image modelOps img6 224 = .ok c6out ∧
      inDisc 112 112 112 0 0 = false ∧ c6out.pix 0 0 ≠ ⟨0, 0, 0⟩ :=
  ⟨rfl, by decide, by decide⟩

/-- C6 (amended).  When at least one contour is found, the returned image
is background-zeroed outside the inscribed circle: every pixel at distance
greater than `targetSize/2` from the output centre is zero.  (On the
no-contour fallback path the plain resize is returned with no circular
masking.) -/
theorem c6_contour_path_outside_zero (ops : CvOps) (img : Img) (n : Nat)
    (out : Img) (hc : (findContours img).isEmpty = false)
    (h : standardize_image ops img n = .ok out) (x y : Nat)
    (hout : inDisc (n / 2 : Nat) (n / 2 : Nat) (n / 2 : Nat) y x = false) :
    out.pix y x = ⟨0, 0, 0⟩ := by
  unfold standardize_image at h
  dsimp only at h
  rw [hc] at h
  simp only [Bool.false_eq_true, if_false] at h
  split at h
  · simp at h
  · rename_i resized hres
    simp only [Except.ok.injEq] at h
    subst h
    simp only [maskedCopy]
    simp only [hout]
    simp

/-- C6's witness input: a uniform bright 4×4 frame (its contour is the
whole frame). -/
def img6w : Img := uniformImg 4 4 ⟨210, 90, 90⟩

/-- C6's witness run. -/
def c6wrun : Except Err Img := standardize_image modelOps img6w 224

/-- Output of C6's witness run. -/
def c6wout : Img := match c6wrun with | .ok o => o | .error _ => default

/-- Witness for the amended C6 at a concrete run: with a contour present,
the corner pixel of the output is zero. -/
theorem c6_contour_path_outside_zero_witness :
    (findContours img6w).isEmpty = false ∧
      standardize_image modelOps img6w 224 = .ok c6wout ∧
      c6wout.pix 0 0 = ⟨0, 0, 0⟩ :=
  ⟨by decide, rfl,
    c6_contour_path_outside_zero modelOps img6w 224 c6wout (by decide) rfl 0 0
      (by decide)⟩

/-! ### Claim C7: the standardized output shape -/

/-- C7's counterexample input: a 12×12 black frame with two adjacent
bright pixels — non-empty, yet `standardize` fails instead of returning a
224×224 image (the enclosing radius of the two-point contour truncates to
0 and the crop is empty). -/
def img7 : Img := ⟨12, 12, fun y x =>
  if y = 6 && (x = 4 || x = 5) then ⟨255, 255, 255⟩ else ⟨0, 0, 0⟩⟩

/-- Counterexample to C7 as stated: a non-empty input on which
`standardize` raises rather than returning a `targetSize × targetSize`
image. -/
theorem c7_counterexample :
    0 < img7.w * img7.h ∧
      standardize_image modelOps img7 224 = .error .emptyResize :=
  ⟨by decide, rfl⟩

/-- C7 (amended).  Whenever `standardize` returns an image, that image is
exactly `targetSize × targetSize` (regardless of input size and aspect);
it can instead fail, on inputs whose selected enclosing circle truncates
to radius 0 and leaves an empty crop. -/
theorem c7_output_dims (ops : CvOps) (img : Img) (n : Nat) (out : Img)
    (h : standardize_image ops img n = .ok out) : out.w = n ∧ out.h = n := by
  unfold standardize_image at h
  dsimp only at h
  split at h
  · unfold resizeImg at h
    split at h
    · simp at h
    · simp only [Except.ok.injEq] at h
      subst h
      exact ⟨rfl, rfl⟩
  · split at h
    · simp at h
    · rename_i resized hres
      simp only [Except.ok.injEq] at h
      subst h
      unfold resizeImg at hres
      split at hres
      · simp at hres
      · simp only [Except.ok.injEq] at hres
        subst hres
        exact ⟨rfl, rfl⟩

/-- C7's witness input: a uniform bright 3×3 frame. -/
def img7w : Img := uniformImg 3 3 ⟨210, 90, 90⟩

/-- C7's witness run. -/
def c7wrun : Except Err Img := standardize_image modelOps img7w 224

/-- Output of C7's witness run. -/
def c7wout : Img := match c7wrun with | .ok o => o | .error _ => default

/-- Witness for the amended C7 at a concrete run: the output is exactly
224×224. -/
theorem c7_output_dims_witness :
    standardize_image modelOps img7w 224 = .ok c7wout ∧
      c7wout.w = 224 ∧ c7wout.h = 224 :=
  ⟨rfl, c7_output_dims modelOps img7w 224 c7wout rfl⟩

/-! ### Claim C8: maximum-brightness pixels and the smoothed reference -/

/-- C8 (amended).  A pixel at maximum brightness in the input, inside the
circle geometry, ends equal to the median-smoothed reference of the input
provided it still reads at least 150 on every channel when the
highlight-correction pass runs (in particular whenever the component pass
left it untouched).  Without that proviso the claim fails: a component
repair may rewrite the pixel below 150, and then the inpainted value is
kept — see the counterexample. -/
theorem c8_highlight_median (ops : CvOps) (img : Img) (cp : CircleParams)
    (result : Img) (ids : List Nat) (full std : Img) (x y : Nat)
    (hpass : cleanPass ops img cp = .ok (result, ids))
    (hmax : img.pix y x = ⟨255, 255, 255⟩)
    (hin : inDisc cp.cirX cp.cirY cp.cirRadius y x = true)
    (hb : 150 ≤ (result.pix y x).b) (hg : 150 ≤ (result.pix y x).g)
    (hr : 150 ≤ (result.pix y x).r)
    (h : clean_axial_map ops img cp = .ok (full, std)) :
    full.pix y x = (medianFiltered ops img).pix y x := by
  unfold clean_axial_map at h
  rw [hpass] at h
  cases hcm : circleMask1 cp.cirX cp.cirY cp.cirRadius with
  | error e => rw [hcm] at h; simp at h
  | ok cm =>
    rw [hcm] at h
    cases hc3 : circleMask3 img.w img.h cp.cirX cp.cirY cp.cirRadius with
    | error e => rw [hc3] at h; simp at h
    | ok c3 =>
      rw [hc3] at h
      dsimp only at h
      split at h
      · simp at h
      · rename_i out hstd
        simp only [Except.ok.injEq, Prod.mk.injEq] at h
        obtain ⟨hf, hs⟩ := h
        unfold circleMask1 at hcm
        split at hcm
        · simp at hcm
        · simp only [Except.ok.injEq] at hcm
          subst hcm
          unfold circleMask3 at hc3
          split at hc3
          · simp at hc3
          · simp only [Except.ok.injEq] at hc3
            subst hc3
            rw [← hf]
            simp [andImg, medianFiltered, pixMod, hin, hb, hg, hr,
              mod256_and_255]

/-- C8's counterexample input: a 10×10 frame with a two-pixel saturated
component at rows 5, columns 5-6, inside a circle of centre `(5,5)` and
radius 4. -/
def img8 : Img := ⟨10, 10, fun y x =>
  if y = 5 && (x = 5 || x = 6) then ⟨255, 255, 255⟩ else ⟨210, 90, 90⟩⟩

/-- C8's counterexample run. -/
def c8run : Except Err (Img × Img) := clean_axial_map modelOps img8 ⟨5, 5, 4⟩

/-- Full-resolution output of C8's counterexample run. -/
def c8full : Img := match c8run with | .ok (f, _) => f | .error _ => default

/-- Standardized output of C8's counterexample run. -/
def c8std : Img := match c8run with | .ok (_, s) => s | .error _ => default

/-- Counterexample to C8 as stated: pixel `(5,5)` is at maximum
brightness in the input and inside the geometry, its area-2 component is
repaired by the component pass (to a value below the 150 cutoff under the
recorded inpainting behaviour), so the cleaned output keeps the inpainted
value instead of the smoothed reference. -/
theorem c8_counterexample :
    clean_axial_map modelOps img8 ⟨5, 5, 4⟩ = .ok (c8full, c8std) ∧
      img8.pix 5 5 = ⟨255, 255, 255⟩ ∧
      inDisc 5 5 4 5 5 = true ∧
      c8full.pix 5 5 ≠ (medianFiltered modelOps img8).pix 5 5 :=
  ⟨rfl, rfl, by decide, by decide⟩

/-- C8's witness input: a single saturated pixel (area 1, untouched by
the component pass) at `(3,3)`, inside a circle of centre `(3,3)` and
radius 3. -/
def img8w : Img := ⟨8, 8, fun y x =>
  if y = 3 && x = 3 then ⟨255, 255, 255⟩ else ⟨210, 90, 90⟩⟩

/-- C8's witness pass run. -/
def c8wpass : Except Err (Img × List Nat) := cleanPass modelOps img8w ⟨3, 3, 3⟩

/-- Post-pass image of C8's witness run. -/
def c8wres : Img := match c8wpass with | .ok (r, _) => r | .error _ => default

/-- Repaired labels of C8's witness run. -/
def c8wids : List Nat := match c8wpass with | .ok (_, i) => i | .error _ => []

/-- C8's witness clean run. -/
def c8wrun : Except Err (Img × Img) := clean_axial_map modelOps img8w ⟨3, 3, 3⟩

/-- Full-resolution output of C8's witness run. -/
def c8wfull : Img := match c8wrun with | .ok (f, _) => f | .error _ => default

/-- Standardized output of C8's witness run. -/
def c8wstd : Img := match c8wrun with | .ok (_, s) => s | .error _ => default

/-- Witness for the amended C8 at a concrete run: the saturated pixel is
still saturated after the pass and comes out equal to the smoothed
reference. -/
theorem c8_highlight_median_witness :
    clean_axial_map modelOps img8w ⟨3, 3, 3⟩ = .ok (c8wfull, c8wstd) ∧
      c8wfull.pix 3 3 = (medianFiltered modelOps img8w).pix 3 3 :=
  ⟨rfl,
    c8_highlight_median modelOps img8w ⟨3, 3, 3⟩ c8wres c8wids c8wfull c8wstd
      3 3 rfl rfl (by decide) (by decide) (by decide) (by decide) rfl⟩

/-! ### Claim C9: degenerate geometry is not rejected -/

/-- C9's counterexample input: a uniform 4×4 frame. -/
def img9 : Img := uniformImg 4 4 ⟨210, 90, 90⟩

/-- Counterexample to C9 as stated: a positive-radius disc lying wholly
outside the image bounds is not rejected — `clean` returns an image (all
of whose pixels are zeroed by the final clip) instead of reporting an
error. -/
theorem c9_counterexample :
    ((rasterPts 4 4).all fun p => !inDisc (-10) (-10) 2 p.1 p.2) = true ∧
      exceptIsOk (clean_axial_map modelOps img9 ⟨-10, -10, 2⟩) = true :=
  ⟨by decide, by decide⟩

/-- C9 (amended).  `clean` performs no geometry validation at entry: a
zero radius or an out-of-bounds disc flows through the pipeline normally
(see the counterexample), and the only degenerate-geometry failure is a
negative radius, which errors when the circle mask is drawn (or earlier,
if the component pass itself fails), never as an immediate precondition
check. -/
theorem c9_negative_radius_errors (ops : CvOps) (img : Img)
    (cp : CircleParams) (h : cp.cirRadius < 0) :
    exceptIsOk (clean_axial_map ops img cp) = false := by
  unfold clean_axial_map
  cases hp : cleanPass ops img cp with
  | error e => rfl
  | ok pr =>
    obtain ⟨result, ids⟩ := pr
    simp [circleMask1, h, exceptIsOk]

/-- C9's witness input: a uniform 4×4 frame (distinct from the
counterexample's). -/
def img9w : Img := uniformImg 4 4 ⟨210, 90, 90⟩

/-- Witness for the amended C9 at a concrete run: radius `-1` makes
`clean` fail. -/
theorem c9_negative_radius_errors_witness :
    (-1 : Int) < 0 ∧
      exceptIsOk (clean_axial_map modelOps img9w ⟨0, 0, -1⟩) = false :=
  ⟨by decide, c9_negative_radius_errors modelOps img9w ⟨0, 0, -1⟩ (by decide)⟩

/-! ### Claim C10: the two outputs of `clean` are coupled -/

/-- C10.  Whenever `clean` returns, its second output is exactly
`standardize` applied to its first (full-resolution, circle-clipped)
output with target size 224. -/
theorem c10_standardized_coupling (ops : CvOps) (img : Img)
    (cp : CircleParams) (full std : Img)
    (h : clean_axial_map ops img cp = .ok (full, std)) :
    standardize_image ops full 224 = .ok std := by
  unfold clean_axial_map at h
  cases hp : cleanPass ops img cp with
  | error e => rw [hp] at h; simp at h
  | ok pr =>
    obtain ⟨result, ids⟩ := pr
    rw [hp] at h
    cases hcm : circleMask1 cp.cirX cp.cirY cp.cirRadius with
    | error e => rw [hcm] at h; simp at h
    | ok cm =>
      rw [hcm] at h
      cases hc3 : circleMask3 img.w img.h cp.cirX cp.cirY cp.cirRadius with
      | error e => rw [hc3] at h; simp at h
      | ok c3 =>
        rw [hc3] at h
        dsimp only at h
        split at h
        · simp at h
        · rename_i out hstd
          simp only [Except.ok.injEq, Prod.mk.injEq] at h
          obtain ⟨hf, hs⟩ := h
          rw [← hf, ← hs]
          exact hstd

/-- C10's witness input: a uniform 5×5 frame. -/
def img10 : Img := uniformImg 5 5 ⟨210, 90, 90⟩

/-- C10's witness run. -/
def c10run : Except Err (Img × Img) := clean_axial_map modelOps img10 ⟨2, 2, 2⟩

/-- Full-resolution output of C10's witness run. -/
def c10full : Img := match c10run with | .ok (f, _) => f | .error _ => default

/-- Standardized output of C10's witness run. -/
def c10std : Img := match c10run with | .ok (_, s) => s | .error _ => default

/-- Witness for C10 at a concrete run: standardizing the first output
reproduces the second. -/
theorem c10_standardized_coupling_witness :
    clean_axial_map modelOps img10 ⟨2, 2, 2⟩ = .ok (c10full, c10std) ∧
      standardize_image modelOps c10full 224 = .ok c10std :=
  ⟨rfl, c10_standardized_coupling modelOps img10 ⟨2, 2, 2⟩ c10full c10std rfl⟩

end AxialMap
